import Mathlib

/-!
Verification development for the aonapi repository: a shallow embedding of the
synchronization and freshness-caching core (src/aonapi/indexer.py,
src/aonapi/routes/nethys_data.py, src/aonapi/aon_serializers.py,
src/aonapi/models.py) together with theorems settling the frozen claims.

Modelling conventions:
  - JSON values (and the Python objects json.loads produces) are the type JVal;
    Python None and JSON null are both JVal.null.
  - Machine-level Python exceptions are the type PyErr; fallible code returns
    Except PyErr.
  - Timestamps (datetime values) are Int seconds; datetime.now() becomes an
    explicit parameter now.
  - The relational store is the structure DB; autoincrement primary keys are
    modelled with explicit next-id counters.
  - Network calls are oracles passed as parameters (String to status and body).
-/

/-- Value universe for JSON documents and the Python objects built from them.
Floats do not occur in the modelled code paths and are omitted. -/
inductive JVal where
  | null : JVal
  | bool : Bool → JVal
  | int : Int → JVal
  | str : String → JVal
  | arr : List JVal → JVal
  | obj : List (String × JVal) → JVal

/-- Python exception kinds raised by the modelled code. The flushError
constructor stands for the FlushError or IntegrityError the session raises at
flush/commit time when an added row conflicts with an existing primary key
(sqlalchemy surfaces either, depending on whether the conflicting row is in
the identity map or only in the database). -/
inductive PyErr where
  | keyError (key : String)
  | indexError
  | valueError (msg : String)
  | attributeError (msg : String)
  | typeError (msg : String)
  | flushError
deriving DecidableEq

instance {ε α : Type} [DecidableEq ε] [DecidableEq α] : DecidableEq (Except ε α) := fun x y =>
  match x, y with
  | .ok a, .ok b =>
    if h : a = b then isTrue (by rw [h]) else isFalse (fun hh => by cases hh; exact h rfl)
  | .error a, .error b =>
    if h : a = b then isTrue (by rw [h]) else isFalse (fun hh => by cases hh; exact h rfl)
  | .ok _, .error _ => isFalse (fun hh => by cases hh)
  | .error _, .ok _ => isFalse (fun hh => by cases hh)

/-- Python truthiness of a value (bool(x)). -/
def pyTruthy : JVal → Bool
  | .null => false
  | .bool b => b
  | .int n => n != 0
  | .str s => s != ""
  | .arr xs => !xs.isEmpty
  | .obj kvs => !kvs.isEmpty

/-- Truthiness of an optional value (None is falsy). -/
def pyTruthyOpt : Option JVal → Bool
  | none => false
  | some v => pyTruthy v

/-- Dictionary lookup over the key-value list of a JSON object. -/
def objLookup : List (String × JVal) → String → Option JVal
  | [], _ => none
  | (k, v) :: rest, key => if k == key then some v else objLookup rest key

/-- Python subscription d[key]: KeyError when the key is absent, TypeError when
the value is not a dictionary. -/
def pyItem (d : JVal) (key : String) : Except PyErr JVal :=
  match d with
  | .obj kvs =>
    match objLookup kvs key with
    | some v => .ok v
    | none => .error (.keyError key)
  | _ => .error (.typeError "object is not subscriptable")

/-- Python d.get(key, default): AttributeError when the receiver is not a
dictionary. -/
def pyGetD (d : JVal) (key : String) (dflt : JVal) : Except PyErr JVal :=
  match d with
  | .obj kvs => .ok ((objLookup kvs key).getD dflt)
  | _ => .error (.attributeError "get")

/-- Python d.get(key), defaulting to None. -/
def pyGet (d : JVal) (key : String) : Except PyErr JVal :=
  pyGetD d key .null

/-- Coercion of a value to String for methods such as split and lower;
AttributeError on any other receiver, as in Python. -/
def asStr : JVal → Except PyErr String
  | .str s => .ok s
  | _ => .error (.attributeError "str method on non-string value")

/-- Coercion of a value to a list for iteration; the modelled payload items
only iterate genuine JSON arrays. -/
def asList : JVal → Except PyErr (List JVal)
  | .arr xs => .ok xs
  | _ => .error (.typeError "value is not iterable as a list")

/-- Python x[0] on a list value: IndexError when empty, TypeError otherwise. -/
def pyIndex0 : JVal → Except PyErr JVal
  | .arr [] => .error .indexError
  | .arr (x :: _) => .ok x
  | _ => .error (.typeError "value is not indexable")

/-- ASCII lowercasing, the behaviour of str.lower() on the identifiers that
occur upstream. -/
def pyLower (s : String) : String :=
  String.mk (s.data.map Char.toLower)

/-- Index of the first occurrence of the pattern sep inside s, scanning left to
right, as Python str.find does for nonempty patterns. -/
def findSub (sep : List Char) : List Char → Option Nat
  | [] => if sep.isEmpty then some 0 else none
  | c :: rest =>
    if sep.isPrefixOf (c :: rest) then some 0
    else (findSub sep rest).map (· + 1)

/-- Fuel-driven worker for Python str.split(sep) with a nonempty separator.
Fuel bounded below by the length of the input makes the fuel-exhausted branch
coincide with the base case. -/
def pySplitAux (sep : List Char) : Nat → List Char → List (List Char)
  | 0, s => [s]
  | fuel + 1, s =>
    match findSub sep s with
    | none => [s]
    | some i => s.take i :: pySplitAux sep fuel (s.drop (i + sep.length))

/-- Python s.split(sep) for a nonempty separator: non-overlapping occurrences,
left to right, keeping empty fields. -/
def pySplit (sep s : String) : List String :=
  if sep.data.isEmpty then [s]
  else (pySplitAux sep.data s.data.length s.data).map (fun cs => String.mk cs)

/-- Fuel-driven worker for Python str.replace with a nonempty pattern. -/
def pyReplaceAux (pat rep : List Char) : Nat → List Char → List Char
  | 0, s => s
  | fuel + 1, s =>
    match findSub pat s with
    | none => s
    | some i => s.take i ++ rep ++ pyReplaceAux pat rep fuel (s.drop (i + pat.length))

/-- Python s.replace(pat, rep) for a nonempty pattern. -/
def pyReplace (s pat rep : String) : String :=
  if pat.data.isEmpty then s
  else String.mk (pyReplaceAux pat.data rep.data s.data.length s.data)

/-- Python whitespace characters stripped by str.strip(). -/
def pyWhitespace : List Char :=
  [' ', '\t', '\n', '\r', '\x0b', '\x0c']

/-- Removal of leading and trailing characters drawn from the given set, the
behaviour of str.strip(chars). -/
def pyStripChars (chars : List Char) (s : String) : String :=
  String.mk ((((s.data.dropWhile (fun c => chars.contains c)).reverse).dropWhile
    (fun c => chars.contains c)).reverse)

/-- Python str.strip() with no argument: strip whitespace. -/
def pyStrip (s : String) : String :=
  pyStripChars pyWhitespace s

/-- Numeric value of a list of decimal digits. -/
def digitsVal (ds : List Char) : Int :=
  ds.foldl (fun acc c => 10 * acc + (Int.ofNat (c.toNat - 48))) 0

/-- Python int(s) on a string: surrounding whitespace allowed, an optional
sign, then a nonempty run of decimal digits; ValueError otherwise. Digit-group
underscores do not occur in the modelled inputs and are not accepted. -/
def pyStrToInt (s : String) : Except PyErr Int :=
  let t := (pyStrip s).data
  let signDigits : Int × List Char :=
    match t with
    | '-' :: r => (-1, r)
    | '+' :: r => (1, r)
    | r => (1, r)
  if !signDigits.2.isEmpty && signDigits.2.all (fun c => c.isDigit) then
    .ok (signDigits.1 * digitsVal signDigits.2)
  else
    .error (.valueError ("invalid literal for int() with base 10: " ++ s))

/-- Python int(x) on an arbitrary value: ints pass through, bools are 0 or 1,
strings are parsed, anything else is a TypeError. -/
def pyIntVal : JVal → Except PyErr Int
  | .int n => .ok n
  | .bool b => .ok (if b then 1 else 0)
  | .str s => pyStrToInt s
  | _ => .error (.typeError "int() argument must be a string or a number")

/-- Equality as used by Python set membership on the identifier values stored
in the reconciliation sets. Only hashable primitives occur there (container
values would be a TypeError when building the set), and Python compares bools
and ints numerically while an int never equals a str. -/
def pyEqPrim : JVal → JVal → Bool
  | .null, .null => true
  | .bool a, .bool b => a == b
  | .int a, .int b => a == b
  | .str a, .str b => a == b
  | .bool a, .int b => (if a then (1 : Int) else 0) == b
  | .int a, .bool b => a == (if b then (1 : Int) else 0)
  | _, _ => false

/-- Enumerated ability type from enums.Ability. -/
inductive Ability where
  | strength | dexterity | constitution | intelligence | wisdom | charisma
deriving DecidableEq

/-- Enumerated ability-boost type from enums.AbilityBoost. -/
inductive AbilityBoost where
  | strength | dexterity | constitution | intelligence | wisdom | charisma
  | free | two_free_ability_boosts
deriving DecidableEq

/-- Enumerated size type from enums.Size. -/
inductive Size where
  | tiny | small | medium | large | huge
deriving DecidableEq

/-- Result type of parse_ability_mispellings: either an Ability member or an
AbilityBoost member, as the Python function returns members of either enum. -/
def AbParsed : Type := Ability ⊕ AbilityBoost

instance : DecidableEq AbParsed := by
  unfold AbParsed
  infer_instance

/-- Member names of enums.AbilityBoost, the keys of AbilityBoost.__members__. -/
def abilityBoostMemberNames : List String :=
  ["strength", "dexterity", "constitution", "intelligence", "wisdom", "charisma",
   "free", "two_free_ability_boosts"]

/-- Member lookup in AbilityBoost.__members__ by attribute name. -/
def boostOfMemberName (s : String) : Option AbilityBoost :=
  if s == "strength" then some .strength
  else if s == "dexterity" then some .dexterity
  else if s == "constitution" then some .constitution
  else if s == "intelligence" then some .intelligence
  else if s == "wisdom" then some .wisdom
  else if s == "charisma" then some .charisma
  else if s == "free" then some .free
  else if s == "two_free_ability_boosts" then some .two_free_ability_boosts
  else none

/-- Misspelling table of parse_ability_mispellings, tried in the insertion
order of the Python dict; the first matching set wins. -/
def abilityMapLookup (a : String) : Option Ability :=
  if a ∈ ["inteligence", "intellgence", "intellignce", "intellignece"] then some .intelligence
  else if a ∈ ["strengh", "strenght"] then some .strength
  else if a ∈ ["dextarity", "dexteirty"] then some .dexterity
  else if a ∈ ["constition", "consitution"] then some .constitution
  else if a ∈ ["widsom"] then some .wisdom
  else if a ∈ ["charimsa"] then some .charisma
  else none

/-- Every string in the misspelling table. -/
def allAbilityMisspellings : List String :=
  ["inteligence", "intellgence", "intellignce", "intellignece",
   "strengh", "strenght", "dextarity", "dexteirty",
   "constition", "consitution", "widsom", "charimsa"]

/-- Special-case table of parse_ability_mispellings: the canonical phrase is
mapped through AbilityBoost by replacing spaces with underscores. -/
def specialCaseLookup (a : String) : Option AbilityBoost :=
  if a ∈ ["two_free", "two free", "2 free"] then some .two_free_ability_boosts
  else if a ∈ ["free"] then some .free
  else none

/-- Every string accepted by the special-case table. -/
def specialCaseStrings : List String :=
  ["two_free", "two free", "2 free", "free"]

/-- Embedding of aon_serializers.parse_ability_mispellings: None passes
through; a name whose space-to-underscore form is an AbilityBoost member is
returned from that enum; otherwise the misspelling table, then the special
cases, are consulted; anything else raises ValueError. -/
def parse_ability_mispellings (ability : Option String) : Except PyErr (Option AbParsed) :=
  match ability with
  | none => .ok none
  | some ability =>
    match boostOfMemberName (pyReplace ability " " "_") with
    | some b => .ok (some (Sum.inr b))
    | none =>
      match abilityMapLookup ability with
      | some a => .ok (some (Sum.inl a))
      | none =>
        match specialCaseLookup ability with
        | some b => .ok (some (Sum.inr b))
        | none => .error (.valueError ("Unknown ability: " ++ ability))

/-- Embedding of aon_serializers.parse_aon_languages: split the raw field on
comma-space, and for each piece keep the text of the leading bracket group. -/
def parse_aon_languages (raw_language : String) : List String :=
  let languages := pySplit ", " raw_language
  languages.map (fun lang =>
    pyStrip (pyStripChars ['['] ((pySplit "]" lang).headD "")))

/-- Conversion of a string to enums.Size by value, the behaviour of the
enum constructor call Size(value); ValueError on an unknown value. -/
def sizeOfName (s : String) : Except PyErr Size :=
  if s == "tiny" then .ok .tiny
  else if s == "small" then .ok .small
  else if s == "medium" then .ok .medium
  else if s == "large" then .ok .large
  else if s == "huge" then .ok .huge
  else .error (.valueError ("is not a valid Size: " ++ s))

/-- Row of the ancestry table, fields as parse_ancestry_data constructs them.
SQLModel table models do not validate at construction time, so fields the
Python code assigns raw values to are typed by the constructed value: rarity
and vision hold lowered strings, name holds the raw JSON value. -/
structure AncestryRow where
  id : Int
  uuid_group_id : Nat
  last_fetched : Int
  name : JVal
  hp : Option Int
  size : List Size
  speed : JVal
  ability_boost : List (Option AbParsed)
  ability_flaw : Option AbParsed
  language : List String
  vision : Option String
  rarity : String

/-- Row of the class table, fields as parse_class_data constructs them; the
fields filled by plain dictionary gets keep the raw JSON value. -/
structure ClassRow where
  id : Int
  uuid_group_id : Nat
  last_fetched : Int
  name : JVal
  ability : JVal
  hp : JVal
  tradition : JVal
  attack_proficiency : JVal
  defense_proficiency : JVal
  fortitude_save_proficiency : JVal
  reflex_save_proficiency : JVal
  will_save_proficiency : JVal
  perception_proficiency : JVal
  skill_proficiency : JVal
  rarity : JVal

/-- Row of the generic item table (models.Item, the DefaultNethysDataModel):
its primary key is autoincrement-assigned at commit (0 while pending), and
category_id holds the raw compound upstream identifier. -/
structure ItemRow where
  id : Nat
  category_id : JVal
  category_name : JVal
  data : JVal
  uuid_group_id : Nat
  last_fetched : Int

/-- Numeric record id extraction shared by the typed parsers, the expression
int(aon_data["id"].split("-")[1]) applied to the already-subscripted string:
IndexError when the split has no second field, ValueError when that field is
not numeric. -/
def extract_numeric_id (ids : String) : Except PyErr Int :=
  match (pySplit "-" ids)[1]? with
  | none => Except.error PyErr.indexError
  | some p => pyStrToInt p

/-- Embedding of aon_serializers.parse_ancestry_data, with the evaluation
order of the Python statements and constructor arguments preserved; now stands
for datetime.now() at serialization time. -/
def parse_ancestry_data (aon_data : JVal) (uuid_group_id : Nat) (now : Int) :
    Except PyErr AncestryRow := do
  let aon_hp ← pyGet aon_data "hp_raw"
  let cast_hp ← if pyTruthy aon_hp then (pyIntVal aon_hp).map some else pure none
  let aon_speed ← pyGet aon_data "speed"
  let cast_speed ← if pyTruthy aon_speed then pyGet aon_speed "max" else pure (JVal.int 0)
  let flaw_list ← pyGetD aon_data "attribute_flaw" (.arr [.null])
  let aon_ability_flaw ← pyIndex0 flaw_list
  let cast_ability_flaw : Option String :=
    match aon_ability_flaw with
    | .str s => some (pyLower s)
    | _ => none
  let idv ← pyItem aon_data "id"
  let ids ← asStr idv
  let idn ← extract_numeric_id ids
  let namev ← pyItem aon_data "name"
  let sizev ← pyGetD aon_data "size" (.arr [])
  let sizeItems ← asList sizev
  let size ← sizeItems.mapM (fun v => do
    let s ← asStr v
    sizeOfName (pyLower s))
  let attrv ← pyGetD aon_data "attribute" (.arr [])
  let attrItems ← asList attrv
  let ability_boost ← attrItems.mapM (fun v => do
    let s ← asStr v
    parse_ability_mispellings (some (pyLower s)))
  let ability_flaw ← parse_ability_mispellings cast_ability_flaw
  let langv ← pyGetD aon_data "language_markdown" (.str "")
  let langs ← asStr langv
  let language := parse_aon_languages langs
  let visionv ← pyGet aon_data "vision"
  let vision ← if pyTruthy visionv then (asStr visionv).map (fun s => some (pyLower s))
               else pure none
  let rarv ← pyGet aon_data "rarity"
  let rars ← asStr rarv
  pure { id := idn, uuid_group_id := uuid_group_id, last_fetched := now,
         name := namev, hp := cast_hp, size := size, speed := cast_speed,
         ability_boost := ability_boost, ability_flaw := ability_flaw,
         language := language, vision := vision, rarity := pyLower rars }

/-- Embedding of aon_serializers.parse_class_data, constructor arguments in
Python evaluation order. -/
def parse_class_data (aon_data : JVal) (uuid_group_id : Nat) (now : Int) :
    Except PyErr ClassRow := do
  let idv ← pyItem aon_data "id"
  let ids ← asStr idv
  let idn ← extract_numeric_id ids
  let namev ← pyItem aon_data "name"
  let ability ← pyGetD aon_data "ability" (.arr [])
  let hp ← pyGetD aon_data "hp" (.int 0)
  let tradition ← pyGet aon_data "tradition"
  let attack ← pyGetD aon_data "attack_proficiency" (.obj [])
  let defense ← pyGetD aon_data "defense_proficiency" (.obj [])
  let fort ← pyGet aon_data "fortitude_save_proficiency"
  let reflex ← pyGet aon_data "reflex_save_proficiency"
  let will ← pyGet aon_data "will_save_proficiency"
  let perception ← pyGet aon_data "perception_proficiency"
  let skills ← pyGetD aon_data "skill_proficiency" (.obj [])
  let rarity ← pyGet aon_data "rarity"
  pure { id := idn, uuid_group_id := uuid_group_id, last_fetched := now,
         name := namev, ability := ability, hp := hp, tradition := tradition,
         attack_proficiency := attack, defense_proficiency := defense,
         fortitude_save_proficiency := fort, reflex_save_proficiency := reflex,
         will_save_proficiency := will, perception_proficiency := perception,
         skill_proficiency := skills, rarity := rarity }

/-- Embedding of aon_serializers.default_nethys_data_serializer: wrap the raw
blob, keeping the compound upstream identifier in category_id; the primary key
is assigned later by the database. -/
def default_nethys_data_serializer (aon_data : JVal) (uuid_group_id : Nat) (now : Int) :
    Except PyErr ItemRow := do
  let cid ← pyItem aon_data "id"
  let cname ← pyItem aon_data "category"
  pure { id := 0, category_id := cid, category_name := cname, data := aon_data,
         uuid_group_id := uuid_group_id, last_fetched := now }

/-- Row of the category table (models.Category). -/
structure CategoryRow where
  id : Nat
  name : String
deriving DecidableEq

/-- Row of the uuid_group table (models.UUID_Group). -/
structure GroupRow where
  id : Nat
  uuid : String
  category_id : Nat
  label : Option String
deriving DecidableEq

/-- The relational store: one list per table plus autoincrement counters. -/
structure DB where
  categories : List CategoryRow
  groups : List GroupRow
  ancestries : List AncestryRow
  classes : List ClassRow
  items : List ItemRow
  next_category_id : Nat
  next_group_id : Nat
  next_item_id : Nat

/-- Empty database with counters starting at 1, as SQLite assigns row ids. -/
def emptyDB : DB :=
  { categories := [], groups := [], ancestries := [], classes := [], items := [],
    next_category_id := 1, next_group_id := 1, next_item_id := 1 }

/-- Record wrapper over the three storage models, the value space of MODEL_MAP
dispatch (Ancestry, Class, or the DefaultNethysDataModel fallback). -/
inductive NRow where
  | anc (r : AncestryRow)
  | cls (r : ClassRow)
  | item (r : ItemRow)

/-- Timestamp of a stored record, the last_fetched column shared by every
model through the NethysData base. -/
def nrow_last_fetched : NRow → Int
  | .anc r => r.last_fetched
  | .cls r => r.last_fetched
  | .item r => r.last_fetched

/-- Rows of the table MODEL_MAP selects for a category name, restricted to one
uuid group: the query select(model).where(model.uuid_group_id == gid). -/
def model_rows (db : DB) (category_name : String) (gid : Nat) : List NRow :=
  if category_name == "ancestry" then
    (db.ancestries.filter (fun r => r.uuid_group_id == gid)).map NRow.anc
  else if category_name == "class" then
    (db.classes.filter (fun r => r.uuid_group_id == gid)).map NRow.cls
  else
    (db.items.filter (fun r => r.uuid_group_id == gid)).map NRow.item

/-- Dispatch of SERIALIZER_MAP with the default fallback, producing a pending
row for the matching model. -/
def serialize_item (category_name : String) (aon_data : JVal) (gid : Nat) (now : Int) :
    Except PyErr NRow :=
  if category_name == "ancestry" then (parse_ancestry_data aon_data gid now).map NRow.anc
  else if category_name == "class" then (parse_class_data aon_data gid now).map NRow.cls
  else (default_nethys_data_serializer aon_data gid now).map NRow.item

/-- INSERT of an ancestry row: db.add followed by commit is a plain INSERT,
so a row whose upstream-derived primary key already exists makes the flush
raise instead of updating in place. -/
def insert_anc (rows : List AncestryRow) (r : AncestryRow) : Except PyErr (List AncestryRow) :=
  if rows.any (fun x => x.id == r.id) then .error .flushError
  else .ok (rows ++ [r])

/-- INSERT of a class row, raising on a duplicate primary key like the
ancestry case. -/
def insert_cls (rows : List ClassRow) (r : ClassRow) : Except PyErr (List ClassRow) :=
  if rows.any (fun x => x.id == r.id) then .error .flushError
  else .ok (rows ++ [r])

/-- Commit of the pending rows added during one store pass: every row is
INSERTed, so a typed row whose upstream-derived primary key is already present
(in the table or earlier in the same batch) raises and the transaction leaves
nothing persisted; generic item rows receive the next autoincrement id and
cannot conflict. On success returns the new store and the committed rows as
db.refresh makes them visible to the caller. -/
def db_commit (db : DB) (pending : List NRow) : Except PyErr (DB × List NRow) :=
  pending.foldlM (fun acc row =>
    match row with
    | .anc r => (insert_anc acc.1.ancestries r).map
        (fun tbl => ({ acc.1 with ancestries := tbl }, acc.2 ++ [.anc r]))
    | .cls r => (insert_cls acc.1.classes r).map
        (fun tbl => ({ acc.1 with classes := tbl }, acc.2 ++ [.cls r]))
    | .item r =>
      let rid := acc.1.next_item_id
      pure ({ acc.1 with items := acc.1.items ++ [{ r with id := rid }],
                         next_item_id := rid + 1 },
            acc.2 ++ [.item { r with id := rid }]))
    (db, ([] : List NRow))

/-- Identifier set of the fresh upstream payload exactly as line 171 of
nethys_data.py builds it: the second dash-separated field of each item id, as
a set of Python strings. The subscription and split can themselves raise. -/
def fresh_data_ids (payload : List JVal) : Except PyErr (List JVal) :=
  payload.mapM (fun aon_data => do
    let idv ← pyItem aon_data "id"
    let s ← asStr idv
    match (pySplit "-" s).get? 1 with
    | none => Except.error PyErr.indexError
    | some p => pure (JVal.str p))

/-- Identifier set of the stored records exactly as lines 172-179 of
nethys_data.py build it: the integer primary keys of the rows of
DefaultNethysDataModel (the generic item table) for this group, whatever model
the category uses. -/
def db_data_ids (db : DB) (gid : Nat) : List JVal :=
  (db.items.filter (fun r => r.uuid_group_id == gid)).map (fun r => JVal.int (Int.ofNat r.id))

/-- Set difference db_data_ids minus fresh_data_ids under Python equality, the
reconciliation set the synchronizer warns about. -/
def missing_ids (dbIds freshIds : List JVal) : List JVal :=
  dbIds.filter (fun v => !(freshIds.any (fun w => pyEqPrim v w)))

/-- Observable outcome of one store_fetched_data pass. -/
structure StoreRes where
  stored : List NRow
  failed : Nat
  missing : List JVal
  db : DB

/-- Embedding of nethys_data.store_fetched_data: serialize each payload item
(counting per-item failures through the except handler, whose log line itself
subscripts and splits the malformed item id and can raise), commit the batch,
then reconcile stored identifiers against the fresh payload. The initial and
final count queries only feed log messages and are omitted. -/
def store_fetched_data (uuid_group : GroupRow) (category_name : String)
    (aon_data_list : List JVal) (db : DB) (now : Int) : Except PyErr StoreRes := do
  let acc ← aon_data_list.foldlM (fun (acc : List NRow × Nat) aon_data =>
    match serialize_item category_name aon_data uuid_group.id now with
    | .ok r => pure (acc.1 ++ [r], acc.2)
    | .error _ => do
      let idv ← pyItem aon_data "id"
      let s ← asStr idv
      match (pySplit "-" s).get? 1 with
      | none => Except.error PyErr.indexError
      | some _ => pure (acc.1, acc.2 + 1))
    (([] : List NRow), 0)
  let committed ← db_commit db acc.1
  let fresh ← fresh_data_ids aon_data_list
  let missing := missing_ids (db_data_ids committed.1 uuid_group.id) fresh
  pure { stored := committed.2, failed := acc.2, missing := missing, db := committed.1 }

/-- Freshness window constant FETCH_THRESHOLD_SECONDS (2 hours). -/
def FETCH_THRESHOLD_SECONDS : Int := 7200

/-- Cache-hit condition of fetch_data_by_uuid: a non-empty record set, every
record fetched strictly later than now minus the freshness window. -/
def cache_hit_cond (data : List NRow) (now : Int) : Bool :=
  !data.isEmpty && data.all (fun r => now - FETCH_THRESHOLD_SECONDS < nrow_last_fetched r)

/-- Embedding of nethys_data.fetch_data_from_aon: None on a non-200 upstream
status, the decoded body otherwise. The upstream service is the oracle. -/
def fetch_data_from_aon (uuid : String) (upstream : String → Nat × JVal) : Option JVal :=
  let response := upstream uuid
  if response.1 == 200 then some response.2 else none

/-- Response value of fetch_data_by_uuid: either the record set or the
not-found shape, a pair of an error dictionary and the status 404. -/
inductive FetchResp where
  | records (rs : List NRow)
  | notFound (msg : String) (code : Nat)

/-- Run of fetch_data_by_uuid: the returned value (or propagated exception),
whether the upstream endpoint was called, and the resulting store. -/
structure FetchOut where
  resp : Except PyErr FetchResp
  upstreamCalled : Bool
  db : DB

/-- Embedding of nethys_data.fetch_data_by_uuid: resolve the group, resolve
the category name (AttributeError if the foreign key dangles, as .first().name
would raise on None), serve from storage when every record is fresh, otherwise
fetch upstream and delegate to store_fetched_data. -/
def fetch_data_by_uuid (uuid : String) (db : DB) (now : Int)
    (upstream : String → Nat × JVal) : FetchOut :=
  match db.groups.find? (fun g => g.uuid == uuid) with
  | none => { resp := .ok (.notFound "UUID not found." 404), upstreamCalled := false, db := db }
  | some uuid_group =>
    match db.categories.find? (fun c => c.id == uuid_group.category_id) with
    | none => { resp := .error (.attributeError "name"), upstreamCalled := false, db := db }
    | some cat =>
      let category_name := cat.name
      let data := model_rows db category_name uuid_group.id
      if cache_hit_cond data now then
        { resp := .ok (.records data), upstreamCalled := false, db := db }
      else
        let aon_data := fetch_data_from_aon uuid upstream
        if !(pyTruthyOpt aon_data) then
          { resp := .ok (.notFound "Data not found." 404), upstreamCalled := true, db := db }
        else
          match aon_data with
          | some (.arr xs) =>
            match store_fetched_data uuid_group category_name xs db now with
            | .ok res => { resp := .ok (.records res.stored), upstreamCalled := true, db := res.db }
            | .error e => { resp := .error e, upstreamCalled := true, db := db }
          | _ => { resp := .error (.typeError "payload is not a JSON array"),
                   upstreamCalled := true, db := db }

/-- Events the indexer logs; sleeps are recorded as events so the retry delay
is observable. -/
inductive LogEv where
  | dbLocked (attempt maxRetries : Nat)
  | sleepSecs (n : Nat)
  | unexpectedError (uuid : String)
  | retriesExhausted (uuid : String)
deriving DecidableEq

/-- Outcome of one attempted registration transaction, the oracle standing for
the storage engine: success, an OperationalError (write-lock contention), or
any other exception. -/
inductive TxOutcome where
  | ok
  | opError
  | otherError
deriving DecidableEq

/-- Oracle under which every transaction attempt succeeds. -/
def okOracle : String → Nat → TxOutcome := fun _ _ => .ok

/-- State the indexer threads through a batch: the store, the in-memory
category cache (the single categories entry of the TTLCache; expiry is not
exercised within one batch), and the log. -/
structure RegState where
  db : DB
  cache : Option (List (String × Nat))
  log : List LogEv

/-- Empty indexer state. -/
def st0 : RegState :=
  { db := emptyDB, cache := none, log := [] }

/-- First value bound to a key in the cached name-to-id mapping. -/
def lookupName : List (String × Nat) → String → Option Nat
  | [], _ => none
  | (k, v) :: rest, n => if k == n then some v else lookupName rest n

/-- Embedding of indexer.fetch_categories: serve the cached mapping when
present, otherwise read the category table and cache the mapping. -/
def fetch_categories (st : RegState) : (List (String × Nat)) × RegState :=
  match st.cache with
  | some m => (m, st)
  | none =>
    let m := st.db.categories.map (fun c => (c.name, c.id))
    (m, { st with cache := some m })

/-- Embedding of indexer.get_or_create_category: resolve through the cached
mapping, otherwise insert a new category row and add the mapping to the cached
dictionary in place. -/
def get_or_create_category (name : String) (st : RegState) : Nat × RegState :=
  let fetched := fetch_categories st
  match lookupName fetched.1 name with
  | some cid => (cid, fetched.2)
  | none =>
    let st1 := fetched.2
    let cid := st1.db.next_category_id
    let db2 := { st1.db with
      categories := st1.db.categories ++ [{ id := cid, name := name }],
      next_category_id := cid + 1 }
    let cache2 := match st1.cache with
      | some m => some (m ++ [(name, cid)])
      | none => none
    (cid, { st1 with db := db2, cache := cache2 })

/-- Retry count max_retries of process_uuids. -/
def MAX_RETRIES : Nat := 3

/-- Fixed delay retry_delay (seconds) of process_uuids. -/
def RETRY_DELAY : Nat := 2

/-- Retry loop of process_uuids for one uuid, counted by remaining attempts:
a successful transaction checks for an existing group row and inserts one only
when absent, then breaks; an OperationalError logs a warning, sleeps the fixed
delay and retries; any other exception logs and breaks; exhausting every
attempt reaches the for-else branch and logs that the uuid ran out of
retries. -/
def attempt_loop (oracle : String → Nat → TxOutcome) (uuid : String) (cid : Nat) :
    Nat → RegState → RegState
  | 0, st => { st with log := st.log ++ [.retriesExhausted uuid] }
  | remaining + 1, st =>
    match oracle uuid (MAX_RETRIES - (remaining + 1)) with
    | .ok =>
      match st.db.groups.find? (fun g => g.uuid == uuid) with
      | some _ => st
      | none =>
        let gid := st.db.next_group_id
        { st with db := { st.db with
            groups := st.db.groups ++ [{ id := gid, uuid := uuid, category_id := cid, label := none }],
            next_group_id := gid + 1 } }
    | .opError =>
      attempt_loop oracle uuid cid remaining
        { st with log := st.log ++ [.dbLocked (MAX_RETRIES - (remaining + 1)) MAX_RETRIES,
                                    .sleepSecs RETRY_DELAY] }
    | .otherError => { st with log := st.log ++ [.unexpectedError uuid] }

/-- Loop body of indexer.process_uuids for one index pair: an empty member
list is skipped, otherwise the category name is the text of the first member
before the first dash, the category is resolved or created, and the group is
registered under the retry loop. -/
def register_one (oracle : String → Nat → TxOutcome) (uuid : String)
    (items : List String) (st : RegState) : RegState :=
  match items with
  | [] => st
  | m :: _ =>
    let category_name := (pySplit "-" m).headD ""
    let resolved := get_or_create_category category_name st
    attempt_loop oracle uuid resolved.1 MAX_RETRIES resolved.2

/-- Embedding of indexer.process_uuids: the loop body applied to each pair of
the index in dict insertion order. -/
def process_uuids (oracle : String → Nat → TxOutcome) :
    List (String × List String) → RegState → RegState
  | [], st => st
  | (uuid, items) :: rest, st =>
    process_uuids oracle rest (register_one oracle uuid items st)

/-- Modelled from the spec, for refinement comparison only (section 4.6): the
numeric suffix of a compound identifier is the text after the LAST dash, when
that text is numeric. -/
def specNumericSuffixAfterLastDash (s : String) : Option Int :=
  match pyStrToInt ((pySplit "-" s).getLastD "") with
  | .ok n => some n
  | .error _ => none

/-- Modelled from the spec, for refinement comparison only (section 8): the
reconciliation report for stored numeric ids against fresh numeric ids is the
stored ids absent from the fresh payload. -/
def specMissingIds (stored fresh : List Int) : List Int :=
  stored.filter (fun i => !(fresh.contains i))

/-- Ancestry row with the given primary key under uuid group 7, the stored
shape used by the reconciliation scenarios. -/
def ancRow (i : Int) : AncestryRow :=
  { id := i, uuid_group_id := 7, last_fetched := 0, name := .str "a", hp := none,
    size := [], speed := .int 0, ability_boost := [], ability_flaw := none,
    language := [], vision := none, rarity := "common" }

/-- Well-formed upstream ancestry item with the given compound identifier. -/
def ancItem (s : String) : JVal :=
  .obj [("id", .str s), ("name", .str "n"), ("rarity", .str "common")]

/-- Identifier group row number 7 used by the synchronizer scenarios. -/
def gEx : GroupRow := { id := 7, uuid := "uu", category_id := 1, label := none }

/-- Store with ancestry records 1, 2 and 3 for group 7 and an empty generic
item table. -/
def dbTyped : DB := { emptyDB with ancestries := [ancRow 1, ancRow 2, ancRow 3] }

/-- Fresh upstream ancestry payload carrying numeric ids 1, 2 and 4. -/
def payloadT : List JVal := [ancItem "ancestry-1", ancItem "ancestry-2", ancItem "ancestry-4"]

/-- Generic item row with the given primary key under uuid group 7. -/
def itemRowEx (i : Nat) : ItemRow :=
  { id := i, category_id := .str "x", category_name := .str "widget", data := .null,
    uuid_group_id := 7, last_fetched := 0 }

/-- Store with generic item records 1, 2 and 3 for group 7. -/
def dbGeneric : DB :=
  { emptyDB with items := [itemRowEx 1, itemRowEx 2, itemRowEx 3], next_item_id := 4 }

/-- Upstream item of an untyped category with the given compound identifier. -/
def wItem (s : String) : JVal := .obj [("id", .str s), ("category", .str "widget")]

/-- Fresh generic payload carrying numeric suffixes 1, 2 and 4. -/
def payloadG : List JVal := [wItem "thing-1", wItem "thing-2", wItem "thing-4"]

/-- Store holding only ancestry record 3 for group 7, so a fresh payload with
ids 1, 2 and 4 INSERTs without any primary-key conflict. -/
def dbTypedNoClash : DB := { emptyDB with ancestries := [ancRow 3] }

/-- C1: the claimed reconciliation behaviour fails on the code, three ways.
On the claim's literal typed input (stored ancestry ids 1,2,3, fresh payload
ids 1,2,4) the plain INSERTs of ids 1 and 2 collide with the existing primary
keys, commit raises, and the pass aborts before any reconciliation: nothing is
stored and nothing is reported. On a conflict-free typed variant (stored id 3
only) the pass succeeds, stores id 4 and keeps id 3 as the claim says, but the
report is EMPTY rather than the set with 3, because the stored-id set is read
from the generic item table whatever the category model. And for a generic
category the fresh set holds STRING suffixes while the stored set holds the
INTEGER primary keys, so the difference reports every stored id. The
spec-modelled report is the set with 3 in both settings. -/
theorem reconciliation_report_mismatch :
    store_fetched_data gEx "ancestry" payloadT dbTyped 100 = .error .flushError
    ∧ (store_fetched_data gEx "ancestry" payloadT dbTypedNoClash 100).map
        (fun r => (r.missing, r.db.ancestries.map AncestryRow.id, r.failed)) =
      .ok ([], [3, 1, 2, 4], 0)
    ∧ specMissingIds [3] [1, 2, 4] = [3]
    ∧ (store_fetched_data gEx "widget" payloadG dbGeneric 100).map
        (fun r => (r.missing, r.db.items.map ItemRow.id, r.failed)) =
      .ok ([.int 1, .int 2, .int 3, .int 4, .int 5, .int 6], [1, 2, 3, 4, 5, 6], 0)
    ∧ specMissingIds [1, 2, 3] [1, 2, 4] = [3] :=
  ⟨rfl, rfl, rfl, rfl, rfl⟩

/-- C9: the language field with bracketed names and descriptions parses to
exactly the two language names, bracket artifacts trimmed. -/
theorem language_field_round_trip :
    parse_aon_languages "[Common] description, [Draconic] description" =
      ["Common", "Draconic"] := by
  decide

/-- Well-formed upstream class item with the given compound identifier. -/
def clsItem (s : String) : JVal := .obj [("id", .str s), ("name", .str "n")]

/-- Payload of five class items where item 3 has a non-numeric suffix but a
well-formed dashed identifier. -/
def payloadBenign : List JVal :=
  [clsItem "class-1", clsItem "class-2", clsItem "class-x", clsItem "class-4", clsItem "class-5"]

/-- Payload of five class items where item 3 has an identifier with no dash at
all. -/
def payloadNoDash : List JVal :=
  [clsItem "class-1", clsItem "class-2", clsItem "class3", clsItem "class-4", clsItem "class-5"]

/-- C7: the partial-failure contract holds only when the malformed item still
has a dashed identifier. With item 3 carrying a non-numeric suffix the other
four records are stored and one failure is counted, exactly as the claim says;
but with item 3 carrying an identifier without a dash, the error-logging line
of the except handler re-splits the malformed id, itself raises IndexError,
and the whole batch aborts with nothing committed. -/
theorem malformed_item_aborts_batch_when_id_has_no_dash :
    (store_fetched_data gEx "class" payloadBenign emptyDB 100).map
        (fun r => (r.stored.length, r.failed, r.db.classes.map ClassRow.id)) =
      .ok (4, 1, [1, 2, 4, 5])
    ∧ store_fetched_data gEx "class" payloadNoDash emptyDB 100 = .error .indexError :=
  ⟨rfl, rfl⟩

/-- C5 counterexample: an index pair with an empty member list produces no
IdentifierGroup row at all and no category named unknown; the whole state is
untouched, refuting the claim that the group row is still upserted under the
category name unknown. -/
theorem empty_member_list_is_skipped :
    process_uuids okOracle [("u", [])] st0 = st0
    ∧ (process_uuids okOracle [("u", [])] st0).db.groups = []
    ∧ (process_uuids okOracle [("u", [])] st0).db.categories = [] :=
  ⟨rfl, rfl, rfl⟩

/-- C6 counterexample: on the compound identifier with two dashes the code
stores the SECOND dash-separated field (12) as the record id, while the text
after the last dash, which the claim says becomes the id, is 34. -/
theorem numeric_suffix_not_taken_after_last_dash :
    (parse_class_data (JVal.obj [("id", .str "x-12-34"), ("name", .str "n")]) 1 0).map
        ClassRow.id = .ok 12
    ∧ specNumericSuffixAfterLastDash "x-12-34" = some 34
    ∧ (12 : Int) ≠ 34 :=
  ⟨rfl, rfl, by decide⟩

/-- Minimal well-formed class item whose only varying part is the compound
identifier. -/
def clsTemplate (s nm : String) : JVal := .obj [("id", .str s), ("name", .str nm)]

/-- Minimal well-formed ancestry item whose only varying part is the compound
identifier. -/
def ancTemplate (s nm : String) : JVal :=
  .obj [("id", .str s), ("name", .str nm), ("rarity", .str "common")]

/-- Class row the template item parses to, once the id is known. -/
def clsTemplateRow (idn : Int) (gid : Nat) (now : Int) (nm : String) : ClassRow :=
  { id := idn, uuid_group_id := gid, last_fetched := now,
    name := .str nm, ability := .arr [], hp := .int 0, tradition := .null,
    attack_proficiency := .obj [], defense_proficiency := .obj [],
    fortitude_save_proficiency := .null, reflex_save_proficiency := .null,
    will_save_proficiency := .null, perception_proficiency := .null,
    skill_proficiency := .obj [], rarity := .null }

/-- Ancestry row the template item parses to, once the id is known. -/
def ancTemplateRow (idn : Int) (gid : Nat) (now : Int) (nm : String) : AncestryRow :=
  { id := idn, uuid_group_id := gid, last_fetched := now,
    name := .str nm, hp := none, size := [], speed := .int 0,
    ability_boost := [], ability_flaw := none,
    language := parse_aon_languages "", vision := none, rarity := pyLower "common" }

/-- Class parsing of the template factors through the id extraction. -/
lemma parse_class_data_template (s nm : String) (gid : Nat) (now : Int) :
    parse_class_data (clsTemplate s nm) gid now =
      (extract_numeric_id s).bind
        (fun idn => Except.ok (clsTemplateRow idn gid now nm)) := rfl

/-- Ancestry parsing of the template factors through the id extraction. -/
lemma parse_ancestry_data_template (s nm : String) (gid : Nat) (now : Int) :
    parse_ancestry_data (ancTemplate s nm) gid now =
      (extract_numeric_id s).bind
        (fun idn => Except.ok (ancTemplateRow idn gid now nm)) := rfl

/-- Id extraction raises IndexError when the split has no second field. -/
lemma extract_numeric_id_none (s : String) (h : (pySplit "-" s)[1]? = none) :
    extract_numeric_id s = .error .indexError := by
  unfold extract_numeric_id
  rw [h]

/-- Id extraction parses the second field of the split when it exists. -/
lemma extract_numeric_id_some (s p : String) (h : (pySplit "-" s)[1]? = some p) :
    extract_numeric_id s = pyStrToInt p := by
  unfold extract_numeric_id
  rw [h]

/-- C6 as amended: both typed parsers set the stable record id to the integer
value of the SECOND dash-separated field of the compound identifier (the text
after the first dash, up to the next dash), not the field after the last dash;
they fail with IndexError when no second field exists and with ValueError when
it is not numeric. -/
theorem record_id_is_second_dash_field (s nm : String) (gid : Nat) (now : Int) :
    ((pySplit "-" s)[1]? = none →
      parse_class_data (clsTemplate s nm) gid now = .error .indexError
      ∧ parse_ancestry_data (ancTemplate s nm) gid now = .error .indexError)
    ∧ (∀ p e, (pySplit "-" s)[1]? = some p → pyStrToInt p = .error e →
      parse_class_data (clsTemplate s nm) gid now = .error e
      ∧ parse_ancestry_data (ancTemplate s nm) gid now = .error e)
    ∧ (∀ p n, (pySplit "-" s)[1]? = some p → pyStrToInt p = .ok n →
      (parse_class_data (clsTemplate s nm) gid now).map ClassRow.id = .ok n
      ∧ (parse_ancestry_data (ancTemplate s nm) gid now).map AncestryRow.id = .ok n) := by
  refine ⟨fun h => ?_, fun p e h hp => ?_, fun p n h hp => ?_⟩
  · rw [parse_class_data_template, parse_ancestry_data_template, extract_numeric_id_none s h]
    exact ⟨rfl, rfl⟩
  · rw [parse_class_data_template, parse_ancestry_data_template,
        extract_numeric_id_some s p h, hp]
    exact ⟨rfl, rfl⟩
  · rw [parse_class_data_template, parse_ancestry_data_template,
        extract_numeric_id_some s p h, hp]
    exact ⟨rfl, rfl⟩

/-- Witness instantiating the amended id-extraction theorem at the compound
identifier class-12. -/
theorem record_id_witness :
    (pySplit "-" "class-12")[1]? = some "12"
    ∧ pyStrToInt "12" = .ok 12
    ∧ (parse_class_data (clsTemplate "class-12" "n") 1 0).map ClassRow.id = .ok 12
    ∧ (parse_ancestry_data (ancTemplate "class-12" "n") 1 0).map AncestryRow.id = .ok 12 :=
  ⟨by decide, by decide,
   ((record_id_is_second_dash_field "class-12" "n" 1 0).2.2 "12" 12 (by decide) (by decide)).1,
   ((record_id_is_second_dash_field "class-12" "n" 1 0).2.2 "12" 12 (by decide) (by decide)).2⟩

/-- Table of known ability misspellings behaves as claimed on the three listed
inputs; helper establishing the boost-name branch misses. -/
lemma boostOfMemberName_eq_none (u : String) (h : u ∉ abilityBoostMemberNames) :
    boostOfMemberName u = none := by
  simp [abilityBoostMemberNames] at h
  obtain ⟨h1, h2, h3, h4, h5, h6, h7, h8⟩ := h
  simp [boostOfMemberName, h1, h2, h3, h4, h5, h6, h7, h8]

/-- Helper establishing the misspelling-table branch misses. -/
lemma abilityMapLookup_eq_none (a : String) (h : a ∉ allAbilityMisspellings) :
    abilityMapLookup a = none := by
  simp [allAbilityMisspellings] at h
  obtain ⟨h1, h2, h3, h4, h5, h6, h7, h8, h9, h10, h11, h12⟩ := h
  simp [abilityMapLookup, h1, h2, h3, h4, h5, h6, h7, h8, h9, h10, h11, h12]

/-- Helper establishing the special-case branch misses. -/
lemma specialCaseLookup_eq_none (a : String) (h : a ∉ specialCaseStrings) :
    specialCaseLookup a = none := by
  simp [specialCaseStrings] at h
  obtain ⟨h1, h2, h3, h4⟩ := h
  simp [specialCaseLookup, h1, h2, h3, h4]

/-- C8: the three listed misspellings normalize to their canonical ability,
and any string that is not an AbilityBoost member name (after space to
underscore), not a listed misspelling and not a listed special case raises the
ValueError standing for UnknownEnumValue. -/
theorem ability_misspellings_table (s : String) :
    parse_ability_mispellings (some "strengh") = .ok (some (Sum.inl Ability.strength))
    ∧ parse_ability_mispellings (some "inteligence") = .ok (some (Sum.inl Ability.intelligence))
    ∧ parse_ability_mispellings (some "widsom") = .ok (some (Sum.inl Ability.wisdom))
    ∧ (pyReplace s " " "_" ∉ abilityBoostMemberNames →
       s ∉ allAbilityMisspellings →
       s ∉ specialCaseStrings →
       parse_ability_mispellings (some s) =
         .error (.valueError ("Unknown ability: " ++ s))) := by
  refine ⟨by decide, by decide, by decide, fun h1 h2 h3 => ?_⟩
  simp [parse_ability_mispellings, boostOfMemberName_eq_none _ h1,
        abilityMapLookup_eq_none _ h2, specialCaseLookup_eq_none _ h3]

/-- Witness instantiating the misspelling-table theorem at an unrecognized
string. -/
theorem ability_misspellings_table_witness :
    (pyReplace "flying" " " "_" ∉ abilityBoostMemberNames
      ∧ "flying" ∉ allAbilityMisspellings
      ∧ "flying" ∉ specialCaseStrings)
    ∧ parse_ability_mispellings (some "flying") =
        .error (.valueError ("Unknown ability: " ++ "flying")) :=
  ⟨⟨by decide, by decide, by decide⟩,
   (ability_misspellings_table "flying").2.2.2 (by decide) (by decide) (by decide)⟩

/-- C2: when the group resolves, its category row exists, and every stored
record of the category model is strictly within the freshness window, the
fetch returns exactly the stored record set and never calls upstream. -/
theorem fresh_cache_hit_serves_without_upstream_call
    (db : DB) (uuid : String) (now : Int) (upstream : String → Nat × JVal)
    (g : GroupRow) (c : CategoryRow)
    (hg : db.groups.find? (fun r => r.uuid == uuid) = some g)
    (hc : db.categories.find? (fun r => r.id == g.category_id) = some c)
    (hne : (model_rows db c.name g.id).isEmpty = false)
    (hfresh : ∀ r ∈ model_rows db c.name g.id,
      now - FETCH_THRESHOLD_SECONDS < nrow_last_fetched r) :
    fetch_data_by_uuid uuid db now upstream =
      { resp := .ok (.records (model_rows db c.name g.id)),
        upstreamCalled := false, db := db } := by
  have hcond : cache_hit_cond (model_rows db c.name g.id) now = true := by
    simp [cache_hit_cond, hne, List.all_eq_true]
    intro r hr
    exact hfresh r hr
  simp [fetch_data_by_uuid, hg, hc, hcond]

/-- Store holding one fresh ancestry record for the registered group. -/
def dbHit : DB := { emptyDB with
  groups := [gEx], categories := [{ id := 1, name := "ancestry" }],
  ancestries := [ancRow 1] }

/-- Witness instantiating the cache-hit theorem at a concrete fresh store. -/
theorem fresh_cache_hit_witness :
    dbHit.groups.find? (fun r => r.uuid == "uu") = some gEx
    ∧ dbHit.categories.find? (fun r => r.id == gEx.category_id) =
        some { id := 1, name := "ancestry" }
    ∧ (model_rows dbHit "ancestry" gEx.id).isEmpty = false
    ∧ (∀ r ∈ model_rows dbHit "ancestry" gEx.id,
        (100 : Int) - FETCH_THRESHOLD_SECONDS < nrow_last_fetched r)
    ∧ fetch_data_by_uuid "uu" dbHit 100 (fun _ => (200, .arr [])) =
      { resp := .ok (.records (model_rows dbHit "ancestry" gEx.id)),
        upstreamCalled := false, db := dbHit } :=
  ⟨rfl, rfl, rfl, by decide,
   fresh_cache_hit_serves_without_upstream_call dbHit "uu" 100 (fun _ => (200, .arr []))
     gEx { id := 1, name := "ancestry" } rfl rfl rfl (by decide)⟩

/-- C10: on a cache miss, an upstream success carrying an empty JSON array is
answered with the same not-found shape as an upstream non-success status, and
in both cases the upstream endpoint was called. -/
theorem empty_upstream_array_gives_not_found
    (db : DB) (uuid : String) (now : Int)
    (g : GroupRow) (c : CategoryRow)
    (hg : db.groups.find? (fun r => r.uuid == uuid) = some g)
    (hc : db.categories.find? (fun r => r.id == g.category_id) = some c)
    (hmiss : cache_hit_cond (model_rows db c.name g.id) now = false)
    (status : Nat) (body : JVal) (hstat : (status == 200) = false) :
    (fetch_data_by_uuid uuid db now (fun _ => (200, .arr []))).resp =
        .ok (.notFound "Data not found." 404)
    ∧ (fetch_data_by_uuid uuid db now (fun _ => (status, body))).resp =
        .ok (.notFound "Data not found." 404)
    ∧ (fetch_data_by_uuid uuid db now (fun _ => (200, .arr []))).upstreamCalled = true
    ∧ (fetch_data_by_uuid uuid db now (fun _ => (status, body))).upstreamCalled = true := by
  refine ⟨?_, ?_, ?_, ?_⟩ <;>
    simp [fetch_data_by_uuid, hg, hc, hmiss, fetch_data_from_aon, hstat,
          pyTruthyOpt, pyTruthy]

/-- Store with a registered group, its category, and no stored records. -/
def dbMiss : DB := { emptyDB with
  groups := [gEx], categories := [{ id := 1, name := "ancestry" }] }

/-- Witness instantiating the empty-payload theorem at a concrete store with
no records and a 500 upstream failure. -/
theorem empty_upstream_array_witness :
    dbMiss.groups.find? (fun r => r.uuid == "uu") = some gEx
    ∧ cache_hit_cond (model_rows dbMiss "ancestry" gEx.id) 100 = false
    ∧ ((500 : Nat) == 200) = false
    ∧ (fetch_data_by_uuid "uu" dbMiss 100 (fun _ => (200, .arr []))).resp =
        .ok (.notFound "Data not found." 404)
    ∧ (fetch_data_by_uuid "uu" dbMiss 100 (fun _ => (500, .str "err"))).resp =
        .ok (.notFound "Data not found." 404) :=
  ⟨rfl, rfl, rfl,
   (empty_upstream_array_gives_not_found dbMiss "uu" 100 gEx { id := 1, name := "ancestry" }
      rfl rfl rfl 500 (.str "err") rfl).1,
   (empty_upstream_array_gives_not_found dbMiss "uu" 100 gEx { id := 1, name := "ancestry" }
      rfl rfl rfl 500 (.str "err") rfl).2.1⟩

/-- Uuid column of the group table of an indexer state. -/
def group_uuids (st : RegState) : List String := st.db.groups.map GroupRow.uuid

/-- Category resolution never touches the group table or the log. -/
lemma get_or_create_category_preserves (name : String) (st : RegState) :
    (get_or_create_category name st).2.db.groups = st.db.groups
    ∧ (get_or_create_category name st).2.log = st.log
    ∧ (get_or_create_category name st).2.db.next_group_id = st.db.next_group_id := by
  unfold get_or_create_category fetch_categories
  cases st.cache <;> dsimp <;> split <;> simp

/-- Retry loop either leaves the group table alone or appends exactly one row
for its uuid, and only when that uuid was absent. -/
lemma attempt_loop_groups (oracle : String → Nat → TxOutcome) (u : String) (cid : Nat) :
    ∀ fuel st,
      (attempt_loop oracle u cid fuel st).db.groups = st.db.groups
      ∨ (u ∉ st.db.groups.map GroupRow.uuid ∧
         (attempt_loop oracle u cid fuel st).db.groups =
           st.db.groups ++
             [{ id := st.db.next_group_id, uuid := u, category_id := cid, label := none }]) := by
  intro fuel
  induction fuel with
  | zero => intro st; left; rfl
  | succ k ih =>
    intro st
    simp only [attempt_loop]
    cases hor : oracle u (MAX_RETRIES - (k + 1)) with
    | ok =>
      cases hf : st.db.groups.find? (fun g => g.uuid == u) with
      | some g => left; rfl
      | none =>
        right
        refine ⟨?_, rfl⟩
        intro hmem
        obtain ⟨g, hg, hgu⟩ := List.mem_map.mp hmem
        have hng := List.find?_eq_none.mp hf g hg
        simp [hgu] at hng
    | opError => exact ih _
    | otherError => left; rfl

/-- Retry loop only appends to the log. -/
lemma attempt_loop_log (oracle : String → Nat → TxOutcome) (u : String) (cid : Nat) :
    ∀ fuel st, ∃ t, (attempt_loop oracle u cid fuel st).log = st.log ++ t := by
  intro fuel
  induction fuel with
  | zero => intro st; exact ⟨[.retriesExhausted u], rfl⟩
  | succ k ih =>
    intro st
    simp only [attempt_loop]
    cases hor : oracle u (MAX_RETRIES - (k + 1)) with
    | ok =>
      cases hf : st.db.groups.find? (fun g => g.uuid == u) with
      | some g => exact ⟨[], by simp⟩
      | none => exact ⟨[], by simp⟩
    | opError =>
      obtain ⟨t, ht⟩ := ih { st with log := st.log ++
        [.dbLocked (MAX_RETRIES - (k + 1)) MAX_RETRIES, .sleepSecs RETRY_DELAY] }
      exact ⟨[.dbLocked (MAX_RETRIES - (k + 1)) MAX_RETRIES, .sleepSecs RETRY_DELAY] ++ t,
        by rw [ht]; simp⟩
    | otherError => exact ⟨[.unexpectedError u], rfl⟩

/-- Retry loop whose first attempt succeeds leaves the uuid registered. -/
lemma attempt_loop_first_ok (oracle : String → Nat → TxOutcome) (u : String) (cid : Nat)
    (st : RegState) (h : oracle u 0 = .ok) :
    u ∈ (attempt_loop oracle u cid MAX_RETRIES st).db.groups.map GroupRow.uuid := by
  show u ∈ (attempt_loop oracle u cid 3 st).db.groups.map GroupRow.uuid
  simp only [attempt_loop]
  rw [show MAX_RETRIES - 3 = 0 from rfl, h]
  cases hf : st.db.groups.find? (fun g => g.uuid == u) with
  | some g =>
    have hp := List.find?_some hf
    have hm := List.mem_of_find?_eq_some hf
    simp at hp
    exact List.mem_map.mpr ⟨g, hm, hp⟩
  | none => simp

/-- Retry loop that hits contention on all three attempts changes nothing but
the log: three warnings, each followed by the fixed sleep, then the
exhaustion message. -/
lemma attempt_loop_exhaust (oracle : String → Nat → TxOutcome) (u : String) (cid : Nat)
    (st : RegState) (h : ∀ a, a < MAX_RETRIES → oracle u a = .opError) :
    attempt_loop oracle u cid MAX_RETRIES st =
      { st with log := st.log ++
        [.dbLocked 0 MAX_RETRIES, .sleepSecs RETRY_DELAY,
         .dbLocked 1 MAX_RETRIES, .sleepSecs RETRY_DELAY,
         .dbLocked 2 MAX_RETRIES, .sleepSecs RETRY_DELAY,
         .retriesExhausted u] } := by
  have h0 := h 0 (by decide)
  have h1 := h 1 (by decide)
  have h2 := h 2 (by decide)
  show attempt_loop oracle u cid 3 st = _
  simp only [attempt_loop]
  rw [show MAX_RETRIES - 3 = 0 from rfl, show MAX_RETRIES - 2 = 1 from rfl,
      show MAX_RETRIES - 1 = 2 from rfl, h0, h1, h2]
  simp

/-- Retry loop under the always-ok oracle is the identity when the uuid is
already registered. -/
lemma attempt_loop_ok_existing (u : String) (cid : Nat) (st : RegState)
    (h : u ∈ st.db.groups.map GroupRow.uuid) :
    attempt_loop okOracle u cid MAX_RETRIES st = st := by
  show attempt_loop okOracle u cid 3 st = st
  simp only [attempt_loop, okOracle]
  cases hf : st.db.groups.find? (fun g => g.uuid == u) with
  | some g => rfl
  | none =>
    exfalso
    obtain ⟨g, hg, hgu⟩ := List.mem_map.mp h
    have hng := List.find?_eq_none.mp hf g hg
    simp [hgu] at hng

/-- Loop body on a nonempty member list unfolds to category resolution plus
the retry loop. -/
lemma register_one_cons (oracle : String → Nat → TxOutcome) (u m : String)
    (ms : List String) (st : RegState) :
    register_one oracle u (m :: ms) st =
      attempt_loop oracle u
        (get_or_create_category ((pySplit "-" m).headD "") st).1 MAX_RETRIES
        (get_or_create_category ((pySplit "-" m).headD "") st).2 := rfl

/-- Loop body either leaves the group table alone or appends one row carrying
its uuid, and only when absent. -/
lemma register_one_groups (oracle : String → Nat → TxOutcome) (u : String)
    (items : List String) (st : RegState) :
    (register_one oracle u items st).db.groups = st.db.groups
    ∨ (u ∉ st.db.groups.map GroupRow.uuid ∧ ∃ row : GroupRow, row.uuid = u ∧
       (register_one oracle u items st).db.groups = st.db.groups ++ [row]) := by
  cases items with
  | nil => left; rfl
  | cons m ms =>
    rw [register_one_cons]
    obtain ⟨hgrp, _, _⟩ :=
      get_or_create_category_preserves ((pySplit "-" m).headD "") st
    rcases attempt_loop_groups oracle u
      (get_or_create_category ((pySplit "-" m).headD "") st).1 MAX_RETRIES
      (get_or_create_category ((pySplit "-" m).headD "") st).2 with h | ⟨hnm, h⟩
    · left; rw [h, hgrp]
    · right
      rw [hgrp] at hnm h
      exact ⟨hnm, _, rfl, h⟩

/-- Loop body only appends to the log. -/
lemma register_one_log (oracle : String → Nat → TxOutcome) (u : String)
    (items : List String) (st : RegState) :
    ∃ t, (register_one oracle u items st).log = st.log ++ t := by
  cases items with
  | nil => exact ⟨[], by simp [register_one]⟩
  | cons m ms =>
    rw [register_one_cons]
    obtain ⟨_, hlog, _⟩ :=
      get_or_create_category_preserves ((pySplit "-" m).headD "") st
    obtain ⟨t, ht⟩ := attempt_loop_log oracle u
      (get_or_create_category ((pySplit "-" m).headD "") st).1 MAX_RETRIES
      (get_or_create_category ((pySplit "-" m).headD "") st).2
    exact ⟨t, by rw [ht, hlog]⟩

/-- Batch processing only appends group rows: rows present before, labels
included, survive verbatim. -/
lemma process_uuids_groups_append (oracle : String → Nat → TxOutcome) :
    ∀ (l : List (String × List String)) (st : RegState),
      ∃ t, (process_uuids oracle l st).db.groups = st.db.groups ++ t := by
  intro l
  induction l with
  | nil => intro st; exact ⟨[], by simp [process_uuids]⟩
  | cons p rest ih =>
    intro st
    obtain ⟨u, items⟩ := p
    obtain ⟨t1, ht1⟩ := ih (register_one oracle u items st)
    rcases register_one_groups oracle u items st with h | ⟨_, row, _, h⟩
    · exact ⟨t1, by simp [process_uuids, ht1, h]⟩
    · exact ⟨[row] ++ t1, by simp [process_uuids, ht1, h]⟩

/-- Batch processing only appends to the log. -/
lemma process_uuids_log_append (oracle : String → Nat → TxOutcome) :
    ∀ (l : List (String × List String)) (st : RegState),
      ∃ t, (process_uuids oracle l st).log = st.log ++ t := by
  intro l
  induction l with
  | nil => intro st; exact ⟨[], by simp [process_uuids]⟩
  | cons p rest ih =>
    intro st
    obtain ⟨u, items⟩ := p
    obtain ⟨t1, ht1⟩ := ih (register_one oracle u items st)
    obtain ⟨t0, ht0⟩ := register_one_log oracle u items st
    exact ⟨t0 ++ t1, by simp [process_uuids, ht1, ht0]⟩

/-- Registered uuids stay registered across a batch. -/
lemma process_uuids_mem_mono (oracle : String → Nat → TxOutcome)
    (l : List (String × List String)) (st : RegState) (u : String)
    (h : u ∈ st.db.groups.map GroupRow.uuid) :
    u ∈ (process_uuids oracle l st).db.groups.map GroupRow.uuid := by
  obtain ⟨t, ht⟩ := process_uuids_groups_append oracle l st
  rw [ht]
  simp only [List.map_append, List.mem_append]
  exact Or.inl h

/-- Every index pair with a nonempty member list whose first attempt succeeds
ends up registered. -/
lemma process_uuids_registers (oracle : String → Nat → TxOutcome) :
    ∀ (l : List (String × List String)) (st : RegState) (u : String)
      (items : List String), (u, items) ∈ l → items ≠ [] → oracle u 0 = .ok →
      u ∈ (process_uuids oracle l st).db.groups.map GroupRow.uuid := by
  intro l
  induction l with
  | nil => intro st u items hmem; exact absurd hmem (List.not_mem_nil _)
  | cons p rest ih =>
    intro st u items hmem hne hok
    rcases List.mem_cons.mp hmem with heq | htail
    · cases heq
      cases items with
      | nil => exact absurd rfl hne
      | cons m ms =>
        show u ∈ (process_uuids oracle rest
          (register_one oracle u (m :: ms) st)).db.groups.map GroupRow.uuid
        apply process_uuids_mem_mono
        rw [register_one_cons]
        exact attempt_loop_first_ok oracle u _ _ hok
    · obtain ⟨v, vitems⟩ := p
      exact ih (register_one oracle v vitems st) u items htail hne hok

/-- A batch never registers a uuid that is neither present already nor a key
of the batch. -/
lemma process_uuids_no_new (oracle : String → Nat → TxOutcome) :
    ∀ (l : List (String × List String)) (st : RegState) (v : String),
      v ∉ st.db.groups.map GroupRow.uuid → (∀ p ∈ l, p.1 ≠ v) →
      v ∉ (process_uuids oracle l st).db.groups.map GroupRow.uuid := by
  intro l
  induction l with
  | nil => intro st v hv _; exact hv
  | cons p rest ih =>
    intro st v hv hkeys
    obtain ⟨u, items⟩ := p
    have hu : u ≠ v := hkeys (u, items) (List.mem_cons_self _ _)
    apply ih (register_one oracle u items st) v _
      (fun q hq => hkeys q (List.mem_cons_of_mem _ hq))
    rcases register_one_groups oracle u items st with h | ⟨_, row, hru, h⟩
    · rw [h]; exact hv
    · rw [h]
      simp only [List.map_append, List.mem_append, List.map_cons, List.map_nil,
        List.mem_singleton]
      rintro (hl | hr)
      · exact hv hl
      · exact hu ((hr.trans hru).symm)

/-- A batch whose nonempty-membered keys are all registered already leaves the
group table untouched (the existence check skips every one). -/
lemma process_uuids_stable :
    ∀ (l : List (String × List String)) (st : RegState),
      (∀ p ∈ l, p.2 ≠ [] → p.1 ∈ st.db.groups.map GroupRow.uuid) →
      (process_uuids okOracle l st).db.groups = st.db.groups := by
  intro l
  induction l with
  | nil => intro st _; rfl
  | cons p rest ih =>
    intro st hinv
    obtain ⟨u, items⟩ := p
    cases items with
    | nil =>
      show (process_uuids okOracle rest (register_one okOracle u [] st)).db.groups = _
      exact ih st (fun q hq => hinv q (List.mem_cons_of_mem _ hq))
    | cons m ms =>
      have hu : u ∈ st.db.groups.map GroupRow.uuid :=
        hinv (u, m :: ms) (List.mem_cons_self _ _) (by simp)
      obtain ⟨hgrp, _, _⟩ :=
        get_or_create_category_preserves ((pySplit "-" m).headD "") st
      have hstep : register_one okOracle u (m :: ms) st =
          (get_or_create_category ((pySplit "-" m).headD "") st).2 := by
        rw [register_one_cons]
        exact attempt_loop_ok_existing u _ _ (by rw [hgrp]; exact hu)
      show (process_uuids okOracle rest (register_one okOracle u (m :: ms) st)).db.groups = _
      rw [hstep]
      rw [ih (get_or_create_category ((pySplit "-" m).headD "") st).2
        (fun q hq hne => by rw [hgrp]; exact hinv q (List.mem_cons_of_mem _ hq) hne)]
      exact hgrp

/-- Batch processing preserves uuid uniqueness: a row is inserted only after
the in-transaction existence check fails. -/
lemma process_uuids_nodup (oracle : String → Nat → TxOutcome) :
    ∀ (l : List (String × List String)) (st : RegState),
      (st.db.groups.map GroupRow.uuid).Nodup →
      ((process_uuids oracle l st).db.groups.map GroupRow.uuid).Nodup := by
  intro l
  induction l with
  | nil => intro st h; exact h
  | cons p rest ih =>
    intro st hnd
    obtain ⟨u, items⟩ := p
    apply ih (register_one oracle u items st)
    rcases register_one_groups oracle u items st with h | ⟨hnm, row, hru, h⟩
    · rw [h]; exact hnd
    · rw [h]
      simp only [List.map_append, List.map_cons, List.map_nil, List.nodup_append,
        List.nodup_cons, List.nodup_nil, List.not_mem_nil, not_false_iff, and_true,
        List.disjoint_singleton]
      rw [hru]
      exact ⟨hnd, trivial, hnm⟩

/-- C3: running the registrar twice over the same index yields the same group
rows as running it once; uuid uniqueness is preserved; pre-existing rows,
labels included, are never overwritten, only new rows are appended. -/
theorem registrar_twice_same_rows (idx : List (String × List String)) (st : RegState)
    (hnd : (st.db.groups.map GroupRow.uuid).Nodup) :
    (process_uuids okOracle idx (process_uuids okOracle idx st)).db.groups =
      (process_uuids okOracle idx st).db.groups
    ∧ ((process_uuids okOracle idx st).db.groups.map GroupRow.uuid).Nodup
    ∧ ∃ t, (process_uuids okOracle idx st).db.groups = st.db.groups ++ t := by
  refine ⟨?_, process_uuids_nodup okOracle idx st hnd,
    process_uuids_groups_append okOracle idx st⟩
  apply process_uuids_stable
  intro p hp hne
  exact process_uuids_registers okOracle idx st p.1 p.2
    (by rw [Prod.mk.eta]; exact hp) hne rfl

/-- Concrete three-entry index used by the idempotence witness. -/
def regIdx : List (String × List String) :=
  [("u1", ["ancestry-1"]), ("u2", ["class-9"]), ("u3", [])]

/-- Witness instantiating the idempotence theorem at a concrete index. -/
theorem registrar_twice_witness :
    (st0.db.groups.map GroupRow.uuid).Nodup
    ∧ ((process_uuids okOracle regIdx (process_uuids okOracle regIdx st0)).db.groups =
        (process_uuids okOracle regIdx st0).db.groups
      ∧ ((process_uuids okOracle regIdx st0).db.groups.map GroupRow.uuid).Nodup
      ∧ ∃ t, (process_uuids okOracle regIdx st0).db.groups = st0.db.groups ++ t) :=
  ⟨by decide, registrar_twice_same_rows regIdx st0 (by decide)⟩

/-- Log block produced by exhausting all retries for one uuid. -/
def exhaustLog (u : String) : List LogEv :=
  [.dbLocked 0 MAX_RETRIES, .sleepSecs RETRY_DELAY,
   .dbLocked 1 MAX_RETRIES, .sleepSecs RETRY_DELAY,
   .dbLocked 2 MAX_RETRIES, .sleepSecs RETRY_DELAY,
   .retriesExhausted u]

/-- C4: when every one of the three attempts for one identifier hits a
contention error, that identifier is skipped (no group row appears for it),
the three warnings with the fixed 2 second sleeps and the exhaustion message
are logged, and every subsequent identifier of the batch with a nonempty
member list is still registered. -/
theorem retry_exhaustion_skips_one_continues_batch
    (oracle : String → Nat → TxOutcome) (u : String) (its : List String)
    (rest : List (String × List String)) (st : RegState)
    (hits : its ≠ [])
    (hfail : ∀ a, a < MAX_RETRIES → oracle u a = .opError)
    (hrest : ∀ p ∈ rest, oracle p.1 0 = .ok)
    (hu : u ∉ st.db.groups.map GroupRow.uuid) :
    u ∉ (process_uuids oracle ((u, its) :: rest) st).db.groups.map GroupRow.uuid
    ∧ (∃ t, (process_uuids oracle ((u, its) :: rest) st).log =
        st.log ++ exhaustLog u ++ t)
    ∧ LogEv.retriesExhausted u ∈ (process_uuids oracle ((u, its) :: rest) st).log
    ∧ ∀ p ∈ rest, p.2 ≠ [] →
        p.1 ∈ (process_uuids oracle ((u, its) :: rest) st).db.groups.map GroupRow.uuid := by
  obtain ⟨m, ms, rfl⟩ : ∃ m ms, its = m :: ms := by
    cases its with
    | nil => exact absurd rfl hits
    | cons m ms => exact ⟨m, ms, rfl⟩
  obtain ⟨hgrp, hlog, _⟩ :=
    get_or_create_category_preserves ((pySplit "-" m).headD "") st
  have hstep : register_one oracle u (m :: ms) st =
      { (get_or_create_category ((pySplit "-" m).headD "") st).2 with
        log := (get_or_create_category ((pySplit "-" m).headD "") st).2.log ++ exhaustLog u } := by
    rw [register_one_cons]
    exact attempt_loop_exhaust oracle u _ _ hfail
  have hproc : process_uuids oracle ((u, m :: ms) :: rest) st =
      process_uuids oracle rest
        { (get_or_create_category ((pySplit "-" m).headD "") st).2 with
          log := (get_or_create_category ((pySplit "-" m).headD "") st).2.log ++ exhaustLog u } := by
    show process_uuids oracle rest (register_one oracle u (m :: ms) st) = _
    rw [hstep]
  have hkeys : ∀ p ∈ rest, p.1 ≠ u := by
    intro p hp heq
    have hok := hrest p hp
    rw [heq] at hok
    rw [hfail 0 (by decide)] at hok
    exact TxOutcome.noConfusion hok
  obtain ⟨t, ht⟩ := process_uuids_log_append oracle rest
    { (get_or_create_category ((pySplit "-" m).headD "") st).2 with
      log := (get_or_create_category ((pySplit "-" m).headD "") st).2.log ++ exhaustLog u }
  have hlogfin : (process_uuids oracle ((u, m :: ms) :: rest) st).log =
      st.log ++ exhaustLog u ++ t := by
    rw [hproc, ht]
    dsimp only
    rw [hlog]
  refine ⟨?_, ⟨t, hlogfin⟩, ?_, ?_⟩
  · rw [hproc]
    apply process_uuids_no_new oracle rest _ u _ hkeys
    dsimp only
    rw [hgrp]
    exact hu
  · rw [hlogfin]
    simp [exhaustLog]
  · intro p hp hne
    rw [hproc]
    exact process_uuids_registers oracle rest _ p.1 p.2
      (by rw [Prod.mk.eta]; exact hp) hne (hrest p hp)

/-- Oracle under which only the identifier bad hits contention, every time. -/
def oracleBad : String → Nat → TxOutcome := fun v _ => if v == "bad" then .opError else .ok

/-- Witness instantiating the retry-exhaustion theorem at a concrete batch of
two identifiers. -/
theorem retry_exhaustion_witness :
    (["ancestry-1"] ≠ ([] : List String)
      ∧ (∀ a, a < MAX_RETRIES → oracleBad "bad" a = .opError)
      ∧ (∀ p ∈ [("good", ["class-2"])], oracleBad p.1 0 = .ok)
      ∧ "bad" ∉ st0.db.groups.map GroupRow.uuid)
    ∧ ("bad" ∉ (process_uuids oracleBad
          [("bad", ["ancestry-1"]), ("good", ["class-2"])] st0).db.groups.map GroupRow.uuid
      ∧ LogEv.retriesExhausted "bad" ∈ (process_uuids oracleBad
          [("bad", ["ancestry-1"]), ("good", ["class-2"])] st0).log
      ∧ "good" ∈ (process_uuids oracleBad
          [("bad", ["ancestry-1"]), ("good", ["class-2"])] st0).db.groups.map GroupRow.uuid) := by
  have h := retry_exhaustion_skips_one_continues_batch oracleBad "bad" ["ancestry-1"]
    [("good", ["class-2"])] st0 (by decide) (by decide) (by decide) (by decide)
  exact ⟨⟨by decide, by decide, by decide, by decide⟩,
    h.1, h.2.2.1, h.2.2.2 ("good", ["class-2"]) (by simp) (by decide)⟩

/-- Text with no occurrence of a character is its own longest prefix free of
that character. -/
lemma findSub_single_none (c : Char) :
    ∀ s : List Char, findSub [c] s = none → s.takeWhile (fun x => x != c) = s := by
  intro s
  induction s with
  | nil => intro _; rfl
  | cons x rest ih =>
    intro h
    simp only [findSub, List.isPrefixOf, Bool.and_true] at h
    by_cases hcx : (c == x) = true
    · rw [if_pos hcx] at h
      exact absurd h (by simp)
    · rw [if_neg hcx] at h
      have hxc : (x != c) = true := by
        simp only [bne_iff_ne]
        intro hxe
        exact hcx (by simp [hxe])
      rw [List.takeWhile_cons, hxc]
      cases hrest : findSub [c] rest with
      | none => simp [ih hrest]
      | some j => rw [hrest] at h; exact absurd h (by simp)

/-- The prefix before the first occurrence of a character is the take up to
the occurrence index. -/
lemma findSub_single_some (c : Char) :
    ∀ (s : List Char) (i : Nat), findSub [c] s = some i →
      s.takeWhile (fun x => x != c) = s.take i := by
  intro s
  induction s with
  | nil =>
    intro i h
    simp [findSub] at h
  | cons x rest ih =>
    intro i h
    simp only [findSub, List.isPrefixOf, Bool.and_true] at h
    by_cases hcx : (c == x) = true
    · rw [if_pos hcx] at h
      cases h
      have hpx : (x != c) = false := by
        simp only [bne_eq_false_iff_eq]
        exact (eq_of_beq hcx).symm
      rw [List.takeWhile_cons, hpx]
      simp
    · rw [if_neg hcx] at h
      have hxc : (x != c) = true := by
        simp only [bne_iff_ne]
        intro hxe
        exact hcx (by simp [hxe])
      obtain ⟨j, hj, rfl⟩ := Option.map_eq_some.mp h
      rw [List.takeWhile_cons, hxc, List.take_succ_cons, ih j hj]
      exact if_pos rfl

/-- Head of a dash split is exactly the text before the first dash. -/
lemma pySplit_head_takeWhile (m : String) :
    (pySplit "-" m).headD "" = String.mk (m.data.takeWhile (fun c => c != '-')) := by
  unfold pySplit
  rw [show ("-" : String).data = ['-'] from rfl]
  rw [if_neg (by simp)]
  cases hm : m.data with
  | nil => simp [pySplitAux]
  | cons c cs =>
    simp only [List.length_cons, pySplitAux]
    cases hf : findSub ['-'] (c :: cs) with
    | none =>
      rw [findSub_single_none '-' (c :: cs) hf]
      simp
    | some i =>
      rw [findSub_single_some '-' (c :: cs) i hf]
      simp

/-- C5 as amended: an index pair with an empty member list is skipped outright
(the state is returned unchanged, so no group row is upserted and no category
is created), and for a nonempty member list the group row is registered under
a category whose name is the head of the dash split of the first member, which
is exactly the text before the first dash. -/
theorem empty_members_skip_and_category_prefix :
    (∀ (u : String) (st : RegState), process_uuids okOracle [(u, [])] st = st)
    ∧ (∀ (u m : String) (ms : List String),
        (process_uuids okOracle [(u, m :: ms)] st0).db.groups =
          [{ id := 1, uuid := u, category_id := 1, label := none }]
        ∧ (process_uuids okOracle [(u, m :: ms)] st0).db.categories =
          [{ id := 1, name := (pySplit "-" m).headD "" }])
    ∧ (∀ m : String, (pySplit "-" m).headD "" =
        String.mk (m.data.takeWhile (fun c => c != '-'))) :=
  ⟨fun _ _ => rfl, fun _ _ _ => ⟨rfl, rfl⟩, pySplit_head_takeWhile⟩
